import Mathlib

/-!
Shallow embedding of the keypair command actions
(openstackclient/compute/v2/keypair.py): CreateKeypair, DeleteKeypair,
ListKeypair and ShowKeypair `take_action` methods, with the remote
compute/identity services, the filesystem and the output stream modelled
as explicit oracles in an `Env` record.  Each embedded action returns its
result together with a trace of the collaborator calls it made.
-/

namespace Keypairs

/-- A compute API microversion, e.g. 2.10, mirroring
`novaclient.api_versions.APIVersion`.  Note 2.10 > 2.2 (minor 10 > 2). -/
structure APIVersion where
  major : Nat
  minor : Nat
deriving DecidableEq, Repr

/-- Strict order on API versions (major first, then minor). -/
def APIVersion.lt (a b : APIVersion) : Bool :=
  a.major < b.major || (a.major == b.major && a.minor < b.minor)

def v2_2 : APIVersion := ⟨2, 2⟩

def v2_10 : APIVersion := ⟨2, 10⟩

/-- Python truthiness of an optional string argument: `None` and the empty
string are falsy (`if parsed_args.foo:`). -/
def truthy : Option String → Bool
  | none => false
  | some s => s != ""

/-- A keypair as returned by the compute service.  `info` is the `_info`
dict (field name / value pairs); the named fields model the attribute
accesses `keypair.name`, `.fingerprint`, `.public_key`, `.private_key`
and (2.2+) the optional `type`. -/
structure Keypair where
  name : String
  fingerprint : String
  type : Option String
  public_key : String
  private_key : String
  info : List (String × String)
deriving DecidableEq, Repr

/-- The keyword arguments assembled for `compute_client.keypairs.create`. -/
structure CreateRequest where
  name : String
  public_key : Option String
  key_type : Option String
  user_id : Option String
deriving DecidableEq, Repr

/-- Errors surfaced by an action: `commandError` models
`osc_lib.exceptions.CommandError` with its message, `lookupError` a
propagated identity / resource lookup failure, `keyError` a Python
`KeyError` from `del info[k]` on a missing key. -/
inductive Err where
  | commandError (msg : String)
  | lookupError (ident : String)
  | keyError (key : String)
deriving DecidableEq, Repr

/-- The external collaborators, as oracles.  `read_file` / `write_file`
return `.error e` with the exception text on IOError; `find_user`,
`find_project` and `find_resource` return `none` when the lookup raises;
`delete_ok` is whether `keypairs.delete(name, user_id?)` succeeds;
`users_list pid` is `identity_client.users.list(tenant_id=pid)` (user
ids, in returned order); `keypairs_list u?` is `keypairs.list()` with an
optional `user_id` filter. -/
structure Env where
  api_version : APIVersion
  read_file : String → Except String String
  write_file : String → String → Except String Unit
  find_user : String → Option String → Option String
  find_project : String → Option String → Option String
  users_list : String → List String
  keypairs_create : CreateRequest → Keypair
  keypairs_list : Option String → List Keypair
  find_resource : String → Option String → Option Keypair
  delete_ok : String → Option String → Bool

/-- The version-gate error message, exactly as in the source:
`'--os-compute-api-version <ver> or greater is required to support the
<feature> option'`. -/
def gateMsg (ver feature : String) : String :=
  "--os-compute-api-version " ++ ver ++
    " or greater is required to support the " ++ feature ++ " option"

/-- Whether `pat` starts `s` (character lists). -/
def leadsWith : List Char → List Char → Bool
  | [], _ => true
  | _ :: _, [] => false
  | a :: as, b :: bs => a == b && leadsWith as bs

/-- Whether `pat` occurs contiguously inside `s` (character lists). -/
def occursIn (pat : List Char) : List Char → Bool
  | [] => pat.isEmpty
  | c :: rest => leadsWith pat (c :: rest) || occursIn pat rest

/-- Substring test on strings. -/
def strContains (s pat : String) : Bool :=
  occursIn pat.data s.data

/-- Lexicographic code-point comparison of character lists, as Python
compares strings. -/
def charsLe : List Char → List Char → Bool
  | [], _ => true
  | _ :: _, [] => false
  | a :: as, b :: bs =>
    if a.toNat < b.toNat then true
    else if b.toNat < a.toNat then false
    else charsLe as bs

/-- Lexicographic code-point order on strings (Python string `<=`). -/
def strLe (a b : String) : Bool :=
  charsLe a.data b.data

/-- Python `sorted(info.items())` for a dict: a stable sort of the field
name / value pairs by field name (dict keys are unique, so comparing
keys is the same as comparing the tuples). -/
def sortPairs (l : List (String × String)) : List (String × String) :=
  l.insertionSort (fun p q => strLe p.1 q.1 = true)

/-- Python `zip(*sorted(info.items()))`: the pair (field names, values), both in
ascending field-name order. -/
def recordOf (info : List (String × String)) : List String × List String :=
  let s := sortPairs info
  (s.map Prod.fst, s.map Prod.snd)

/-- Python `if k in info: del info[k]` on a dict, as in CreateKeypair. -/
def delKeyGuarded (k : String) (info : List (String × String)) :
    List (String × String) :=
  if info.any (fun p => p.1 == k) then info.filter (fun p => p.1 != k)
  else info

/-- Python `del info[k]` on a dict, raising `KeyError` when absent, as in
ShowKeypair. -/
def delKeyStrict (k : String) (info : List (String × String)) :
    Except Err (List (String × String)) :=
  if info.any (fun p => p.1 == k) then .ok (info.filter (fun p => p.1 != k))
  else .error (.keyError k)

/-- The `--user` gate-and-resolve block shared verbatim by Create, Delete,
List and Show: `if parsed_args.user:` check the 2.10 gate, then
`identity_common.find_user(...).id`.  Returns the optional resolved
`user_id` together with the list of identifiers passed to `find_user`
(the identity-call trace); a failure carries that trace too. -/
def resolveUserGate (env : Env) (user user_domain : Option String) :
    Except (Err × List String) (Option String × List String) :=
  if truthy user then
    if APIVersion.lt env.api_version v2_10 then
      .error (.commandError (gateMsg "2.10" "--user"), [])
    else
      match env.find_user (user.getD "") user_domain with
      | none => .error (.lookupError (user.getD ""), [user.getD ""])
      | some uid => .ok (some uid, [user.getD ""])
  else .ok (none, [])

/-- Outcome of `CreateKeypair.take_action`: the command result (a pair of
column names and values for the shown record, `([], [])` for the empty
record), plus traces: create requests issued, identifiers passed to
`find_user`, strings written to stdout, and private-key file writes
attempted as (path, contents). -/
structure CreateOutcome where
  result : Except Err (List String × List String)
  createRequests : List CreateRequest
  findUserCalls : List String
  stdout : List String
  fileWrites : List (String × String)
deriving Repr

/-- The opening of `CreateKeypair.take_action`:
`public_key = parsed_args.public_key; if public_key:` read the file,
wrapping an IOError as `CommandError("Key file ... not found: ...")`;
otherwise `public_key` keeps the (falsy) argument value. -/
def readPublicKey (env : Env) (args_public_key : Option String) :
    Except Err (Option String) :=
  if truthy args_public_key then
    match env.read_file (args_public_key.getD "") with
    | .ok contents => .ok (some contents)
    | .error e =>
      .error (.commandError
        ("Key file " ++ args_public_key.getD "" ++ " not found: " ++ e))
  else .ok args_public_key

/-- The private-key saving step of `CreateKeypair.take_action`:
`if private_key:` write `keypair.private_key` to the file, wrapping an
IOError as `CommandError("Key file ... can not be saved: ...")`.
Returns the performed writes as (path, contents). -/
def savePrivateKey (env : Env) (args_private_key : Option String)
    (keypair : Keypair) : Except Err (List (String × String)) :=
  if truthy args_private_key then
    match env.write_file (args_private_key.getD "") keypair.private_key with
    | .ok _ => .ok [(args_private_key.getD "", keypair.private_key)]
    | .error e =>
      .error (.commandError
        ("Key file " ++ args_private_key.getD "" ++
          " can not be saved: " ++ e))
  else .ok []

/-- The embedded `CreateKeypair.take_action`. -/
def createTakeAction (env : Env) (args_name : String)
    (args_public_key args_private_key args_type args_user
      args_user_domain : Option String) : CreateOutcome :=
  match readPublicKey env args_public_key with
  | .error e => ⟨.error e, [], [], [], []⟩
  | .ok public_key =>
    -- if parsed_args.type: gate 2.2 then kwargs['key_type'] = type
    let typeStep : Except Err (Option String) :=
      if truthy args_type then
        if APIVersion.lt env.api_version v2_2 then
          .error (.commandError (gateMsg "2.2" "--type"))
        else .ok args_type
      else .ok none
    match typeStep with
    | .error e => ⟨.error e, [], [], [], []⟩
    | .ok key_type =>
      -- if parsed_args.user: gate 2.10 then find_user(...).id
      match resolveUserGate env args_user args_user_domain with
      | .error (e, calls) => ⟨.error e, [], calls, [], []⟩
      | .ok (user_id, calls) =>
        let req : CreateRequest := ⟨args_name, public_key, key_type, user_id⟩
        let keypair := env.keypairs_create req
        match savePrivateKey env args_private_key keypair with
        | .error e => ⟨.error e, [req], calls,
            [], [(args_private_key.getD "", keypair.private_key)]⟩
        | .ok writes =>
          if truthy public_key || truthy args_private_key then
            let info := delKeyGuarded "private_key"
              (delKeyGuarded "public_key" keypair.info)
            ⟨.ok (recordOf info), [req], calls, [], writes⟩
          else
            ⟨.ok ([], []), [req], calls, [keypair.private_key], writes⟩

/-- Outcome of `DeleteKeypair.take_action`: unit result plus traces of
identity calls, by-name lookups (name, scope passed to `find_resource`)
and delete calls (name passed to `keypairs.delete`, `user_id` kwarg). -/
structure DeleteOutcome where
  result : Except Err Unit
  findUserCalls : List String
  lookupCalls : List (String × Option String)
  deleteCalls : List (String × Option String)
deriving Repr

/-- The bulk-delete loop: for each name, `utils.find_resource(keypairs, n)`
(unscoped) then `keypairs.delete(data.name, **kwargs)`; any failure of
either step increments the counter and the loop continues.  Returns
(failure count, lookup trace, delete trace). -/
def deleteLoop (env : Env) (kwargs : Option String) :
    List String → Nat × List (String × Option String) × List (String × Option String)
  | [] => (0, [], [])
  | n :: rest =>
    let step :
        Nat × List (String × Option String) × List (String × Option String) :=
      match env.find_resource n none with
      | none => (1, [(n, none)], [])
      | some data =>
        if env.delete_ok data.name kwargs then
          (0, [(n, none)], [(data.name, kwargs)])
        else (1, [(n, none)], [(data.name, kwargs)])
    let r := deleteLoop env kwargs rest
    (step.1 + r.1, step.2.1 ++ r.2.1, step.2.2 ++ r.2.2)

/-- The aggregate failure message, exactly as in the source:
`"<result> of <total> keys failed to delete."`. -/
def deleteFailMsg (failures total : Nat) : String :=
  toString failures ++ " of " ++ toString total ++ " keys failed to delete."

/-- The embedded `DeleteKeypair.take_action`. -/
def deleteTakeAction (env : Env) (args_name : List String)
    (args_user args_user_domain : Option String) : DeleteOutcome :=
  match resolveUserGate env args_user args_user_domain with
  | .error (e, calls) => ⟨.error e, calls, [], []⟩
  | .ok (kwargs, calls) =>
    let r := deleteLoop env kwargs args_name
    if r.1 > 0 then
      ⟨.error (.commandError (deleteFailMsg r.1 args_name.length)),
        calls, r.2.1, r.2.2⟩
    else ⟨.ok (), calls, r.2.1, r.2.2⟩

/-- The helper `osc_lib.utils.get_item_properties` restricted to the columns the
List command uses: column `Name` reads `item.name`, `Fingerprint` reads
`item.fingerprint`, `Type` reads `item.type` (empty string when the
attribute is missing). -/
def getItemProperty (kp : Keypair) (col : String) : String :=
  if col == "Name" then kp.name
  else if col == "Fingerprint" then kp.fingerprint
  else if col == "Type" then kp.type.getD ""
  else ""

def getItemProperties (kp : Keypair) (cols : List String) : List String :=
  cols.map (getItemProperty kp)

/-- The List column tuple: `("Name", "Fingerprint")`, with `"Type"`
appended when the negotiated version is at least 2.2. -/
def listColumns (env : Env) : List String :=
  let columns := ["Name", "Fingerprint"]
  if APIVersion.lt env.api_version v2_2 then columns
  else columns ++ ["Type"]

/-- Outcome of `ListKeypair.take_action`: the (columns, rows) result plus
traces of identity calls and of the `user_id` filters passed to
`keypairs.list`. -/
structure ListOutcome where
  result : Except Err (List String × List (List String))
  findUserCalls : List String
  findProjectCalls : List String
  listCalls : List (Option String)
deriving Repr

/-- The branch of `ListKeypair.take_action` that computes `data`
(--project / --user / unfiltered), returning the keypair list or the
error, plus the identity-call and list-call traces (`find_user`
identifiers, `find_project` identifiers, `user_id` filters passed to
`keypairs.list`). -/
def listDataStep (env : Env) (args_user args_user_domain args_project
    args_project_domain : Option String) :
    Except Err (List Keypair) × List String × List String × List (Option String) :=
  if truthy args_project then
    -- gate 2.10, find_project, users.list(tenant_id=project), then
    -- extend with keypairs.list(user_id=u) per user in returned order
    if APIVersion.lt env.api_version v2_10 then
      (.error (.commandError (gateMsg "2.10" "--project")), [], [], [])
    else
      match env.find_project (args_project.getD "") args_project_domain with
      | none => (.error (.lookupError (args_project.getD "")),
          [], [args_project.getD ""], [])
      | some project =>
        let users := env.users_list project
        let data := users.flatMap (fun u => env.keypairs_list (some u))
        (.ok data, [], [args_project.getD ""], users.map some)
  else if truthy args_user then
    if APIVersion.lt env.api_version v2_10 then
      (.error (.commandError (gateMsg "2.10" "--user")), [], [], [])
    else
      match env.find_user (args_user.getD "") args_user_domain with
      | none => (.error (.lookupError (args_user.getD "")),
          [args_user.getD ""], [], [])
      | some uid =>
        (.ok (env.keypairs_list (some uid)),
          [args_user.getD ""], [], [some uid])
  else
    (.ok (env.keypairs_list none), [], [], [none])

/-- The embedded `ListKeypair.take_action`: compute `data`, then the columns (shared
by all three modes), then shape each row with
`utils.get_item_properties`. -/
def listTakeAction (env : Env) (args_user args_user_domain args_project
    args_project_domain : Option String) : ListOutcome :=
  match listDataStep env args_user args_user_domain args_project
      args_project_domain with
  | (.error e, fu, fp, lc) => ⟨.error e, fu, fp, lc⟩
  | (.ok data, fu, fp, lc) =>
    ⟨.ok (listColumns env,
        data.map (fun s => getItemProperties s (listColumns env))),
      fu, fp, lc⟩

/-- Outcome of `ShowKeypair.take_action`: result record plus traces of
identity calls, the scoped by-name lookup, and stdout writes. -/
structure ShowOutcome where
  result : Except Err (List String × List String)
  findUserCalls : List String
  lookupCalls : List (String × Option String)
  stdout : List String
deriving Repr

/-- The embedded `ShowKeypair.take_action`. -/
def showTakeAction (env : Env) (args_name : String)
    (args_public_key : Bool) (args_user args_user_domain : Option String) :
    ShowOutcome :=
  match resolveUserGate env args_user args_user_domain with
  | .error (e, calls) => ⟨.error e, calls, [], []⟩
  | .ok (kwargs, calls) =>
    -- utils.find_resource(keypairs, name, **kwargs)
    match env.find_resource args_name kwargs with
    | none => ⟨.error (.lookupError args_name), calls, [(args_name, kwargs)], []⟩
    | some keypair =>
      if !args_public_key then
        -- del info['public_key'] (unguarded), then zip(*sorted(items))
        match delKeyStrict "public_key" keypair.info with
        | .error e => ⟨.error e, calls, [(args_name, kwargs)], []⟩
        | .ok info => ⟨.ok (recordOf info), calls, [(args_name, kwargs)], []⟩
      else
        ⟨.ok ([], []), calls, [(args_name, kwargs)], [keypair.public_key]⟩

/-! Concrete keypairs and environments used by witnesses and
counterexamples. -/

def kpA : Keypair :=
  ⟨"A", "aa:bb", some "ssh", "pub-A", "priv-A",
    [("name", "A"), ("fingerprint", "aa:bb"), ("public_key", "pub-A")]⟩

def baseEnv : Env where
  api_version := ⟨2, 10⟩
  read_file := fun _ => .ok "ssh-rsa AAAA user@host"
  write_file := fun _ _ => .ok ()
  find_user := fun u _ => some (u ++ "-id")
  find_project := fun p _ => some (p ++ "-id")
  users_list := fun _ => ["u1-id", "u2-id"]
  keypairs_create := fun req =>
    ⟨req.name, "fp:01", req.key_type, req.public_key.getD "gen-pub",
      "gen-priv",
      [("name", req.name), ("fingerprint", "fp:01"),
       ("public_key", req.public_key.getD "gen-pub")]⟩
  keypairs_list := fun
    | some u => [⟨"kp-" ++ u, "fp-" ++ u, some "ssh", "pub", "", []⟩]
    | none => [kpA]
  find_resource := fun n _ => if n == "A" then some kpA else none
  delete_ok := fun _ _ => true

/-- The number of names whose lookup-then-delete attempt fails in the
bulk-delete loop. -/
def deleteFailures (env : Env) (kwargs : Option String)
    (names : List String) : Nat :=
  names.countP (fun n =>
    match env.find_resource n none with
    | none => true
    | some d => !env.delete_ok d.name kwargs)

/-- Whether an error is a version-gate failure (spec `GateError`), by its
message shape. -/
def isGateErr : Err → Bool
  | .commandError m => strContains m " or greater is required to support the "
  | _ => false

/-- Whether an error is a local file failure (spec `FileError`), by its
message shape. -/
def isFileErr : Err → Bool
  | .commandError m => strContains m "Key file "
  | _ => false

/-- Whether a Create result is an error that is either a gate failure or
a file failure. -/
def errIsGateOrFile : Except Err (List String × List String) → Bool
  | .error e => isGateErr e || isFileErr e
  | .ok _ => false

/-- Whether a command result is a success. -/
def resultIsOk : Except Err (List String × List String) → Bool
  | .ok _ => true
  | .error _ => false

/-- A keypair whose `_info` dict carries no `public_key` field. -/
def kpNoPub : Keypair :=
  ⟨"N", "fp:09", none, "pub-N", "priv-N",
    [("name", "N"), ("fingerprint", "fp:09")]⟩

/-- The environment `baseEnv` negotiated down to API version 2.1. -/
def env21 : Env := { baseEnv with api_version := ⟨2, 1⟩ }

/-- API version 2.1 and an unreadable public-key file. -/
def envC4 : Env :=
  { baseEnv with
    api_version := ⟨2, 1⟩,
    read_file := fun _ => .error "No such file or directory" }

/-- A readable but empty public-key file. -/
def envC6 : Env := { baseEnv with read_file := fun _ => .ok "" }

/-- The compute service returns keypairs whose `_info` lacks both
`public_key` and `private_key` fields. -/
def envC9 : Env :=
  { baseEnv with
    keypairs_create := fun req =>
      ⟨req.name, "fp:09", none, "pub-N", "priv-N",
        [("name", req.name), ("fingerprint", "fp:09")]⟩,
    find_resource := fun _ _ => some kpNoPub }

/-- The bulk-delete loop characterized: failure count, one unscoped
lookup per input name in order, and one delete per successful lookup in
order, each scoped by the resolved kwargs. -/
theorem deleteLoop_spec (env : Env) (kwargs : Option String)
    (names : List String) :
    deleteLoop env kwargs names =
      (deleteFailures env kwargs names,
       names.map (fun n => (n, (none : Option String))),
       names.filterMap (fun n =>
         (env.find_resource n none).map (fun d => (d.name, kwargs)))) := by
  induction names with
  | nil => simp [deleteLoop, deleteFailures]
  | cons n rest ih =>
    simp only [deleteLoop, ih, deleteFailures, List.countP_cons,
      List.map_cons, List.filterMap_cons]
    cases hfr : env.find_resource n none with
    | none => simp [hfr, Nat.add_comm]
    | some d =>
      cases hdel : env.delete_ok d.name kwargs with
      | false => simp [hfr, hdel, Nat.add_comm]
      | true => simp [hfr, hdel]

/-- C1: bulk delete walks its names in input order, performing a by-name
lookup for each and a delete for each successful lookup; failures of
either step are counted and the loop continues; at the end it fails with
exactly "<f> of <total> keys failed to delete." when f > 0 and succeeds
silently otherwise. -/
theorem c1_bulk_delete (env : Env) (names : List String) (_h : names ≠ []) :
    (deleteTakeAction env names none none).lookupCalls =
      names.map (fun n => (n, (none : Option String))) ∧
    (deleteTakeAction env names none none).deleteCalls =
      names.filterMap (fun n =>
        (env.find_resource n none).map
          (fun d => (d.name, (none : Option String)))) ∧
    (0 < deleteFailures env none names →
      (deleteTakeAction env names none none).result =
        .error (.commandError
          (deleteFailMsg (deleteFailures env none names) names.length))) ∧
    (deleteFailures env none names = 0 →
      (deleteTakeAction env names none none).result = .ok ()) := by
  have hres : resolveUserGate env none none = .ok (none, []) := rfl
  simp only [deleteTakeAction, hres, deleteLoop_spec]
  refine ⟨?_, ?_, fun hf => ?_, fun hf => ?_⟩
  · split <;> rfl
  · split <;> rfl
  · rw [if_pos hf]
  · rw [if_neg (by omega)]

/-- C1 witness: names [A, B] where A's lookup and delete succeed and B's
lookup fails: both names are looked up in order, delete is called exactly
once (for A), and the operation fails with "1 of 2 keys failed to
delete.". -/
theorem c1_bulk_delete_witness :
    (deleteTakeAction baseEnv ["A", "B"] none none).lookupCalls =
      (["A", "B"].map (fun n => (n, (none : Option String)))) ∧
    (deleteTakeAction baseEnv ["A", "B"] none none).deleteCalls =
      (["A", "B"].filterMap (fun n =>
        (baseEnv.find_resource n none).map
          (fun d => (d.name, (none : Option String))))) ∧
    (0 < deleteFailures baseEnv none ["A", "B"] →
      (deleteTakeAction baseEnv ["A", "B"] none none).result =
        .error (.commandError
          (deleteFailMsg (deleteFailures baseEnv none ["A", "B"])
            ["A", "B"].length))) ∧
    (deleteFailures baseEnv none ["A", "B"] = 0 →
      (deleteTakeAction baseEnv ["A", "B"] none none).result = .ok ()) :=
  c1_bulk_delete baseEnv ["A", "B"] (by simp)

/-! Helper lemmas about substring search, sorting and key stripping. -/

theorem leadsWith_append (p q : List Char) : leadsWith p (p ++ q) = true := by
  induction p with
  | nil => rfl
  | cons a as ih => simp [leadsWith, ih]

theorem occursIn_append_left (p q : List Char) : occursIn p (p ++ q) = true := by
  cases p with
  | nil =>
    cases q with
    | nil => rfl
    | cons c rest => rfl
  | cons a as =>
    have h := leadsWith_append (a :: as) q
    show (leadsWith (a :: as) ((a :: as) ++ q) ||
      occursIn (a :: as) (as ++ q)) = true
    rw [h, Bool.true_or]

theorem strContains_left (p r : String) : strContains (p ++ r) p = true := by
  unfold strContains
  rw [String.data_append]
  exact occursIn_append_left p.data r.data

theorem charsLe_total (a b : List Char) :
    charsLe a b = true ∨ charsLe b a = true := by
  induction a generalizing b with
  | nil => exact Or.inl rfl
  | cons x xs ih =>
    cases b with
    | nil => exact Or.inr rfl
    | cons y ys =>
      by_cases hxy : x.toNat < y.toNat
      · left
        simp [charsLe, hxy]
      · by_cases hyx : y.toNat < x.toNat
        · right
          simp [charsLe, hyx]
        · rcases ih ys with h | h
          · left
            simp [charsLe, hxy, hyx, h]
          · right
            simp [charsLe, hxy, hyx, h]

theorem charsLe_trans (a b c : List Char) (hab : charsLe a b = true)
    (hbc : charsLe b c = true) : charsLe a c = true := by
  induction a generalizing b c with
  | nil => rfl
  | cons x xs ih =>
    cases b with
    | nil => simp [charsLe] at hab
    | cons y ys =>
      cases c with
      | nil => simp [charsLe] at hbc
      | cons z zs =>
        simp only [charsLe] at hab hbc ⊢
        split at hab
        · rename_i hxy
          split at hbc
          · rename_i hyz
            rw [if_pos (by omega)]
          · split at hbc
            · simp at hbc
            · rename_i hyz hzy
              rw [if_pos (by omega)]
        · split at hab
          · simp at hab
          · rename_i hxy hyx
            split at hbc
            · rename_i hyz
              rw [if_pos (by omega)]
            · split at hbc
              · simp at hbc
              · rename_i hyz hzy
                rw [if_neg (by omega), if_neg (by omega)]
                exact ih ys zs hab hbc

theorem strLe_total (a b : String) : strLe a b = true ∨ strLe b a = true :=
  charsLe_total a.data b.data

theorem strLe_trans (a b c : String) (hab : strLe a b = true)
    (hbc : strLe b c = true) : strLe a c = true :=
  charsLe_trans a.data b.data c.data hab hbc

theorem sortPairs_perm (l : List (String × String)) : (sortPairs l).Perm l :=
  List.perm_insertionSort _ l

theorem sortPairs_sorted (l : List (String × String)) :
    List.Sorted (fun p q : String × String => strLe p.1 q.1 = true)
      (sortPairs l) := by
  haveI : IsTotal (String × String) (fun p q => strLe p.1 q.1 = true) :=
    ⟨fun a b => strLe_total a.1 b.1⟩
  haveI : IsTrans (String × String) (fun p q => strLe p.1 q.1 = true) :=
    ⟨fun a b c => strLe_trans a.1 b.1 c.1⟩
  exact List.sorted_insertionSort _ l

theorem recordOf_keys_sorted (l : List (String × String)) :
    List.Sorted (fun a b => strLe a b = true) (recordOf l).1 := by
  have h := sortPairs_sorted l
  simpa [recordOf, List.Sorted, List.pairwise_map] using h

theorem mem_keys_recordOf (k : String) (l : List (String × String)) :
    k ∈ (recordOf l).1 ↔ k ∈ l.map Prod.fst :=
  ((sortPairs_perm l).map Prod.fst).mem_iff

theorem not_mem_keys_filter (k : String) (l : List (String × String)) :
    k ∉ (l.filter (fun p => p.1 != k)).map Prod.fst := by
  intro h
  obtain ⟨p, hp, hpk⟩ := List.mem_map.mp h
  have h2 := (List.mem_filter.mp hp).2
  rw [hpk] at h2
  simp at h2

theorem not_mem_keys_delKeyGuarded (k : String) (l : List (String × String)) :
    k ∉ (delKeyGuarded k l).map Prod.fst := by
  unfold delKeyGuarded
  split
  · exact not_mem_keys_filter k l
  · rename_i hany
    intro hmem
    obtain ⟨p, hp, hpk⟩ := List.mem_map.mp hmem
    exact hany (List.any_eq_true.mpr ⟨p, hp, by simp [hpk]⟩)

theorem keys_delKeyGuarded_mono (k x : String) (l : List (String × String)) :
    x ∈ (delKeyGuarded k l).map Prod.fst → x ∈ l.map Prod.fst := by
  unfold delKeyGuarded
  split
  · intro h
    obtain ⟨p, hp, hpk⟩ := List.mem_map.mp h
    exact List.mem_map.mpr ⟨p, (List.mem_filter.mp hp).1, hpk⟩
  · exact id

/-- The record Create shows: both key fields are absent from it. -/
theorem strippedRecord_excludes (info : List (String × String)) :
    "public_key" ∉
      (recordOf (delKeyGuarded "private_key"
        (delKeyGuarded "public_key" info))).1 ∧
    "private_key" ∉
      (recordOf (delKeyGuarded "private_key"
        (delKeyGuarded "public_key" info))).1 := by
  constructor
  · intro h
    exact not_mem_keys_delKeyGuarded "public_key" info
      (keys_delKeyGuarded_mono "private_key" "public_key" _
        ((mem_keys_recordOf _ _).mp h))
  · intro h
    exact not_mem_keys_delKeyGuarded "private_key" _
      ((mem_keys_recordOf _ _).mp h)

/-- C2: List with --project, when the gate passes and the project
resolves, produces exactly the concatenation of the per-member-user
keypair listings, in the identity service's user order, with one list
call per user and no deduplication or sorting. -/
theorem c2_list_project (env : Env) (proj pd u ud : Option String)
    (pid : String)
    (hp : truthy proj = true)
    (hver : APIVersion.lt env.api_version v2_10 = false)
    (hfp : env.find_project (proj.getD "") pd = some pid) :
    (listTakeAction env u ud proj pd).result =
      .ok (listColumns env,
        ((env.users_list pid).flatMap
          (fun w => env.keypairs_list (some w))).map
          (fun s => getItemProperties s (listColumns env))) ∧
    (listTakeAction env u ud proj pd).listCalls =
      (env.users_list pid).map some := by
  simp [listTakeAction, listDataStep, hp, hver, hfp]

/-- C2 witness: project P with member users u1-id and u2-id produces the
two users' keypair lists concatenated in that order. -/
theorem c2_list_project_witness :
    (listTakeAction baseEnv none none (some "P") none).result =
      .ok (listColumns baseEnv,
        ((baseEnv.users_list "P-id").flatMap
          (fun w => baseEnv.keypairs_list (some w))).map
          (fun s => getItemProperties s (listColumns baseEnv))) ∧
    (listTakeAction baseEnv none none (some "P") none).listCalls =
      (baseEnv.users_list "P-id").map some :=
  c2_list_project baseEnv (some "P") none none none "P-id" rfl rfl rfl

/-- C5: whenever List returns columns at all, they are (Name,
Fingerprint) below version 2.2 and (Name, Fingerprint, Type) from 2.2
on, in every filter mode. -/
theorem c5_list_columns (env : Env) (u ud p pd : Option String)
    (cols : List String) (rows : List (List String))
    (h : (listTakeAction env u ud p pd).result = .ok (cols, rows)) :
    cols =
      (if APIVersion.lt env.api_version v2_2 then ["Name", "Fingerprint"]
       else ["Name", "Fingerprint", "Type"]) := by
  have hc : cols = listColumns env := by
    unfold listTakeAction at h
    rcases hd : listDataStep env u ud p pd with ⟨res, fu, fp, lc⟩
    rw [hd] at h
    cases res with
    | error e => simp at h
    | ok data =>
      simp only at h
      exact congrArg Prod.fst (Except.ok.inj h).symm
  rw [hc]
  unfold listColumns
  split <;> rfl

/-- C5 witness: an unfiltered List at version 2.1 yields the two-column
tuple. -/
theorem c5_list_columns_witness :
    (["Name", "Fingerprint"] : List String) =
      (if APIVersion.lt env21.api_version v2_2 then ["Name", "Fingerprint"]
       else ["Name", "Fingerprint", "Type"]) :=
  c5_list_columns env21 none none none none ["Name", "Fingerprint"]
    [["A", "aa:bb"]] rfl

/-- C10: with a user resolved for Delete, every by-name lookup is made
unscoped (no user_id) while every delete call carries the resolved
user_id; Show's by-name lookup, by contrast, is scoped by it. -/
theorem c10_delete_lookup_unscoped (env : Env) (names : List String)
    (user ud : Option String) (uid : String) (sname : String)
    (hu : truthy user = true)
    (hver : APIVersion.lt env.api_version v2_10 = false)
    (hfu : env.find_user (user.getD "") ud = some uid) :
    (deleteTakeAction env names user ud).lookupCalls =
      names.map (fun n => (n, (none : Option String))) ∧
    (deleteTakeAction env names user ud).deleteCalls =
      names.filterMap (fun n =>
        (env.find_resource n none).map (fun d => (d.name, some uid))) ∧
    (showTakeAction env sname false user ud).lookupCalls =
      [(sname, some uid)] := by
  have hres : resolveUserGate env user ud = .ok (some uid, [user.getD ""]) := by
    simp [resolveUserGate, hu, hver, hfu]
  refine ⟨?_, ?_, ?_⟩
  · simp only [deleteTakeAction, hres, deleteLoop_spec]
    split <;> rfl
  · simp only [deleteTakeAction, hres, deleteLoop_spec]
    split <;> rfl
  · simp only [showTakeAction, hres]
    cases hfr : env.find_resource sname (some uid) with
    | none => simp [hfr]
    | some kp =>
      cases hds : delKeyStrict "public_key" kp.info with
      | error e => simp [hfr, hds]
      | ok i => simp [hfr, hds]

/-- C10 witness: deleting [A, B] as user u looks both names up without a
user_id, deletes A with user_id u-id, and Show's lookup of A is scoped
by u-id. -/
theorem c10_delete_lookup_unscoped_witness :
    (deleteTakeAction baseEnv ["A", "B"] (some "u") none).lookupCalls =
      (["A", "B"].map (fun n => (n, (none : Option String)))) ∧
    (deleteTakeAction baseEnv ["A", "B"] (some "u") none).deleteCalls =
      (["A", "B"].filterMap (fun n =>
        (baseEnv.find_resource n none).map
          (fun d => (d.name, some "u-id")))) ∧
    (showTakeAction baseEnv "A" false (some "u") none).lookupCalls =
      [("A", some "u-id")] :=
  c10_delete_lookup_unscoped baseEnv ["A", "B"] (some "u") none "u-id" "A"
    rfl rfl rfl

/-- A failing `readPublicKey` always yields a file error (its message
starts with "Key file "). -/
theorem readPublicKey_error_isFile (env : Env) (pk : Option String) (e : Err)
    (h : readPublicKey env pk = .error e) : isFileErr e = true := by
  unfold readPublicKey at h
  by_cases hp : truthy pk = true
  · rw [if_pos hp] at h
    cases hrf : env.read_file (pk.getD "") with
    | ok c => rw [hrf] at h; cases h
    | error s =>
      rw [hrf] at h
      cases h
      show strContains ("Key file " ++ pk.getD "" ++ " not found: " ++ s)
        "Key file " = true
      rw [String.append_assoc, String.append_assoc]
      exact strContains_left _ _
  · rw [if_neg hp] at h
    cases h

/-- C3 counterexample: Create with --type given at version 2.1 but an
unreadable public-key file fails with the file error, whose message
mentions neither "2.2" nor "--type", refuting the claim as stated. -/
theorem c3_counterexample :
    truthy (some "ssh") = true ∧
    APIVersion.lt envC4.api_version v2_2 = true ∧
    (createTakeAction envC4 "k" (some "nope") none (some "ssh")
      none none).result =
      .error (.commandError
        "Key file nope not found: No such file or directory") ∧
    strContains "Key file nope not found: No such file or directory"
      "2.2" = false ∧
    strContains "Key file nope not found: No such file or directory"
      "--type" = false :=
  ⟨rfl, rfl, rfl, rfl, rfl⟩

/-- C3 (amended): for Create with a type value given, when the
public-key file read (if any) succeeds: below 2.2 the operation fails
with the gate error containing "2.2" and "--type" and no create request
is issued; from 2.2 on every issued request carries key_type=type, and
with no user argument exactly one such request is issued. -/
theorem c3_create_type_gate (env : Env) (name : String)
    (pk pvk ty user ud public_key : Option String)
    (hty : truthy ty = true)
    (hread : readPublicKey env pk = .ok public_key) :
    (APIVersion.lt env.api_version v2_2 = true →
      (createTakeAction env name pk pvk ty user ud).result =
        .error (.commandError (gateMsg "2.2" "--type")) ∧
      (createTakeAction env name pk pvk ty user ud).createRequests = [] ∧
      strContains (gateMsg "2.2" "--type") "2.2" = true ∧
      strContains (gateMsg "2.2" "--type") "--type" = true) ∧
    (APIVersion.lt env.api_version v2_2 = false →
      (createTakeAction env name pk pvk ty user ud).createRequests.all
        (fun req => req.key_type == ty) = true ∧
      (user = none →
        (createTakeAction env name pk pvk ty user ud).createRequests =
          [⟨name, public_key, ty, none⟩])) := by
  constructor
  · intro hlt
    have h1 : (createTakeAction env name pk pvk ty user ud).result =
        .error (.commandError (gateMsg "2.2" "--type")) := by
      simp [createTakeAction, hread, hty, hlt]
    have h2 : (createTakeAction env name pk pvk ty user ud).createRequests =
        [] := by
      simp [createTakeAction, hread, hty, hlt]
    exact ⟨h1, h2, by decide, by decide⟩
  · intro hlt
    cases hres : resolveUserGate env user ud with
    | error ec =>
      rcases ec with ⟨e, calls⟩
      have hreq : (createTakeAction env name pk pvk ty user ud).createRequests =
          [] := by
        simp [createTakeAction, hread, hty, hlt, hres]
      refine ⟨by rw [hreq]; rfl, fun hun => ?_⟩
      rw [hun] at hres
      simp [resolveUserGate, truthy] at hres
    | ok oc =>
      rcases oc with ⟨uid, calls⟩
      have hall : (createTakeAction env name pk pvk ty user ud).createRequests =
          [⟨name, public_key, ty, uid⟩] := by
        simp only [createTakeAction, hread, hty, hlt]
        simp only [hres]
        cases hw : savePrivateKey env pvk
            (env.keypairs_create ⟨name, public_key, ty, uid⟩) with
        | error e => simp [hw]
        | ok w => simp [hw]; split <;> rfl
      refine ⟨by rw [hall]; simp, fun hun => ?_⟩
      rw [hun] at hres
      have huid : uid = none := by
        simp [resolveUserGate, truthy] at hres
        exact hres.1.symm
      rw [hall, huid]

/-- C3 witness: at version 2.1 with type ssh and no public-key file, the
gate fires with the exact message and no request is issued. -/
theorem c3_create_type_gate_witness :
    (APIVersion.lt env21.api_version v2_2 = true →
      (createTakeAction env21 "k" none none (some "ssh") none none).result =
        .error (.commandError (gateMsg "2.2" "--type")) ∧
      (createTakeAction env21 "k" none none (some "ssh")
        none none).createRequests = [] ∧
      strContains (gateMsg "2.2" "--type") "2.2" = true ∧
      strContains (gateMsg "2.2" "--type") "--type" = true) ∧
    (APIVersion.lt env21.api_version v2_2 = false →
      (createTakeAction env21 "k" none none (some "ssh")
        none none).createRequests.all
        (fun req => req.key_type == some "ssh") = true ∧
      ((none : Option String) = none →
        (createTakeAction env21 "k" none none (some "ssh")
          none none).createRequests = [⟨"k", none, some "ssh", none⟩])) :=
  c3_create_type_gate env21 "k" none none (some "ssh") none none none
    rfl rfl

/-- C4 counterexample: Create invoked with a user at version 2.1 but an
unreadable public-key file aborts before any remote call, but with the
file error, not a gate error — refuting the "aborts with a GateError"
wording of the claim. -/
theorem c4_counterexample :
    truthy (some "u") = true ∧
    APIVersion.lt envC4.api_version v2_10 = true ∧
    (createTakeAction envC4 "k" (some "nope") none none (some "u")
      none).findUserCalls = [] ∧
    (createTakeAction envC4 "k" (some "nope") none none (some "u")
      none).createRequests = [] ∧
    (createTakeAction envC4 "k" (some "nope") none none (some "u")
      none).result =
      .error (.commandError
        "Key file nope not found: No such file or directory") ∧
    isGateErr (.commandError
      "Key file nope not found: No such file or directory") = false :=
  ⟨rfl, rfl, rfl, rfl, rfl, rfl⟩

/-- C4 (amended): any of the four operations invoked with a truthy user
argument below version 2.10 aborts before any remote service is
contacted — the identity resolver is never called, no create request is
issued, and for bulk delete no lookup or delete call is made; the abort
error is the 2.10 --user gate error, except that in Create a failing
local public-key file read aborts first with a file error, and a --type
gate error below 2.2 may fire first (both still before any remote
call). -/
theorem c4_user_gate_aborts (env : Env) (user : Option String)
    (cname : String) (cpk cpvk cty cud : Option String)
    (dnames : List String) (dud lud lpd sud : Option String)
    (sname : String) (spko : Bool)
    (hu : truthy user = true)
    (hver : APIVersion.lt env.api_version v2_10 = true) :
    ((createTakeAction env cname cpk cpvk cty user cud).findUserCalls = [] ∧
     (createTakeAction env cname cpk cpvk cty user cud).createRequests = [] ∧
     errIsGateOrFile
       (createTakeAction env cname cpk cpvk cty user cud).result = true) ∧
    ((deleteTakeAction env dnames user dud).result =
        .error (.commandError (gateMsg "2.10" "--user")) ∧
     (deleteTakeAction env dnames user dud).findUserCalls = [] ∧
     (deleteTakeAction env dnames user dud).lookupCalls = [] ∧
     (deleteTakeAction env dnames user dud).deleteCalls = []) ∧
    ((listTakeAction env user lud none lpd).result =
        .error (.commandError (gateMsg "2.10" "--user")) ∧
     (listTakeAction env user lud none lpd).findUserCalls = [] ∧
     (listTakeAction env user lud none lpd).listCalls = []) ∧
    ((showTakeAction env sname spko user sud).result =
        .error (.commandError (gateMsg "2.10" "--user")) ∧
     (showTakeAction env sname spko user sud).findUserCalls = [] ∧
     (showTakeAction env sname spko user sud).lookupCalls = [] ∧
     (showTakeAction env sname spko user sud).stdout = []) := by
  have hres : ∀ d : Option String, resolveUserGate env user d =
      .error (.commandError (gateMsg "2.10" "--user"), []) := by
    intro d
    simp [resolveUserGate, hu, hver]
  refine ⟨?_, ?_, ?_, ?_⟩
  · cases hrp : readPublicKey env cpk with
    | error e =>
      have hf := readPublicKey_error_isFile env cpk e hrp
      refine ⟨?_, ?_, ?_⟩ <;>
        simp [createTakeAction, hrp, errIsGateOrFile, hf]
    | ok public_key =>
      cases hty : truthy cty with
      | true =>
        cases h22 : APIVersion.lt env.api_version v2_2 with
        | true =>
          have : (createTakeAction env cname cpk cpvk cty user cud) =
              ⟨.error (.commandError (gateMsg "2.2" "--type")),
                [], [], [], []⟩ := by
            simp [createTakeAction, hrp, hty, h22]
          rw [this]
          exact ⟨rfl, rfl, by decide⟩
        | false =>
          have : (createTakeAction env cname cpk cpvk cty user cud) =
              ⟨.error (.commandError (gateMsg "2.10" "--user")),
                [], [], [], []⟩ := by
            simp [createTakeAction, hrp, hty, h22, hres cud]
          rw [this]
          exact ⟨rfl, rfl, by decide⟩
      | false =>
        have : (createTakeAction env cname cpk cpvk cty user cud) =
            ⟨.error (.commandError (gateMsg "2.10" "--user")),
              [], [], [], []⟩ := by
          simp [createTakeAction, hrp, hty, hres cud]
        rw [this]
        exact ⟨rfl, rfl, by decide⟩
  · simp [deleteTakeAction, hres dud]
  · have hproj : truthy (none : Option String) = false := rfl
    simp [listTakeAction, listDataStep, hproj, hu, hver]
  · simp [showTakeAction, hres sud]

/-- C4 witness: at version 2.1 with user u, all four operations fail
with the 2.10 gate error before any remote call. -/
theorem c4_user_gate_aborts_witness :
    ((createTakeAction env21 "k" none none none (some "u")
        none).findUserCalls = [] ∧
     (createTakeAction env21 "k" none none none (some "u")
        none).createRequests = [] ∧
     errIsGateOrFile
       (createTakeAction env21 "k" none none none (some "u")
         none).result = true) ∧
    ((deleteTakeAction env21 ["A"] (some "u") none).result =
        .error (.commandError (gateMsg "2.10" "--user")) ∧
     (deleteTakeAction env21 ["A"] (some "u") none).findUserCalls = [] ∧
     (deleteTakeAction env21 ["A"] (some "u") none).lookupCalls = [] ∧
     (deleteTakeAction env21 ["A"] (some "u") none).deleteCalls = []) ∧
    ((listTakeAction env21 (some "u") none none none).result =
        .error (.commandError (gateMsg "2.10" "--user")) ∧
     (listTakeAction env21 (some "u") none none none).findUserCalls = [] ∧
     (listTakeAction env21 (some "u") none none none).listCalls = []) ∧
    ((showTakeAction env21 "A" false (some "u") none).result =
        .error (.commandError (gateMsg "2.10" "--user")) ∧
     (showTakeAction env21 "A" false (some "u") none).findUserCalls = [] ∧
     (showTakeAction env21 "A" false (some "u") none).lookupCalls = [] ∧
     (showTakeAction env21 "A" false (some "u") none).stdout = []) :=
  c4_user_gate_aborts env21 (some "u") "k" none none none none ["A"]
    none none none none "A" false rfl rfl

/-- C6 counterexample: a readable but empty public-key file.  The create
request carries public_key equal to the exact (empty) file contents, but
the result is the empty record with the private key dumped to stdout —
not the structured record of the keypair's fields — because the empty
contents are falsy, refuting the claim as stated. -/
theorem c6_counterexample :
    envC6.read_file "k.pub" = .ok "" ∧
    (createTakeAction envC6 "k" (some "k.pub") none none none
      none).createRequests = [⟨"k", some "", none, none⟩] ∧
    (createTakeAction envC6 "k" (some "k.pub") none none none
      none).result = .ok ([], []) ∧
    (createTakeAction envC6 "k" (some "k.pub") none none none
      none).stdout = ["gen-priv"] ∧
    recordOf (delKeyGuarded "private_key" (delKeyGuarded "public_key"
      (envC6.keypairs_create ⟨"k", some "", none, none⟩).info)) ≠
      (([], []) : List String × List String) :=
  ⟨rfl, rfl, rfl, rfl, by decide⟩

/-- C6 (amended): Create with a truthy publicKeyPath whose read succeeds
with non-empty contents (no privateKeyPath; gates passing): the single
create request carries public_key equal to the exact file contents, and
the result is the record of the created keypair's fields with public_key
and private_key excluded, sorted by field name. -/
theorem c6_create_with_public_key (env : Env) (name path contents : String)
    (ty user ud uid : Option String) (calls : List String)
    (hpath : truthy (some path) = true)
    (hread : env.read_file path = .ok contents)
    (hne : truthy (some contents) = true)
    (hty : truthy ty = false ∨ APIVersion.lt env.api_version v2_2 = false)
    (hres : resolveUserGate env user ud = .ok (uid, calls)) :
    (createTakeAction env name (some path) none ty user ud).createRequests =
      [⟨name, some contents, (if truthy ty then ty else none), uid⟩] ∧
    (createTakeAction env name (some path) none ty user ud).result =
      .ok (recordOf (delKeyGuarded "private_key" (delKeyGuarded "public_key"
        (env.keypairs_create ⟨name, some contents,
          (if truthy ty then ty else none), uid⟩).info))) ∧
    List.Sorted (fun a b => strLe a b = true)
      (recordOf (delKeyGuarded "private_key" (delKeyGuarded "public_key"
        (env.keypairs_create ⟨name, some contents,
          (if truthy ty then ty else none), uid⟩).info))).1 ∧
    "public_key" ∉
      (recordOf (delKeyGuarded "private_key" (delKeyGuarded "public_key"
        (env.keypairs_create ⟨name, some contents,
          (if truthy ty then ty else none), uid⟩).info))).1 ∧
    "private_key" ∉
      (recordOf (delKeyGuarded "private_key" (delKeyGuarded "public_key"
        (env.keypairs_create ⟨name, some contents,
          (if truthy ty then ty else none), uid⟩).info))).1 := by
  have hrp : readPublicKey env (some path) = .ok (some contents) := by
    simp [readPublicKey, hpath, hread]
  have hpvk : truthy (none : Option String) = false := rfl
  have hkt : ∀ key_type : Option String,
      (createTakeAction env name (some path) none ty user ud).createRequests =
        [⟨name, some contents, (if truthy ty then ty else none), uid⟩] ∧
      (createTakeAction env name (some path) none ty user ud).result =
        .ok (recordOf (delKeyGuarded "private_key" (delKeyGuarded "public_key"
          (env.keypairs_create ⟨name, some contents,
            (if truthy ty then ty else none), uid⟩).info))) := by
    intro _
    rcases hty with h | h
    · refine ⟨?_, ?_⟩ <;>
        simp [createTakeAction, hrp, h, hres, savePrivateKey, hpvk, hne]
    · cases ht : truthy ty with
      | true =>
        refine ⟨?_, ?_⟩ <;>
          simp [createTakeAction, hrp, ht, h, hres, savePrivateKey, hpvk, hne]
      | false =>
        refine ⟨?_, ?_⟩ <;>
          simp [createTakeAction, hrp, ht, hres, savePrivateKey, hpvk, hne]
  obtain ⟨h1, h2⟩ := hkt none
  exact ⟨h1, h2, recordOf_keys_sorted _,
    (strippedRecord_excludes _).1, (strippedRecord_excludes _).2⟩

/-- C6 witness: creating from a non-empty public-key file issues the
request with the exact contents and shows the stripped, sorted record. -/
theorem c6_create_with_public_key_witness :
    (createTakeAction baseEnv "k" (some "k.pub") none none none
      none).createRequests =
      [⟨"k", some "ssh-rsa AAAA user@host",
        (if truthy none then none else none), none⟩] ∧
    (createTakeAction baseEnv "k" (some "k.pub") none none none
      none).result =
      .ok (recordOf (delKeyGuarded "private_key" (delKeyGuarded "public_key"
        (baseEnv.keypairs_create ⟨"k", some "ssh-rsa AAAA user@host",
          (if truthy none then none else none), none⟩).info))) ∧
    List.Sorted (fun a b => strLe a b = true)
      (recordOf (delKeyGuarded "private_key" (delKeyGuarded "public_key"
        (baseEnv.keypairs_create ⟨"k", some "ssh-rsa AAAA user@host",
          (if truthy none then none else none), none⟩).info))).1 ∧
    "public_key" ∉
      (recordOf (delKeyGuarded "private_key" (delKeyGuarded "public_key"
        (baseEnv.keypairs_create ⟨"k", some "ssh-rsa AAAA user@host",
          (if truthy none then none else none), none⟩).info))).1 ∧
    "private_key" ∉
      (recordOf (delKeyGuarded "private_key" (delKeyGuarded "public_key"
        (baseEnv.keypairs_create ⟨"k", some "ssh-rsa AAAA user@host",
          (if truthy none then none else none), none⟩).info))).1 :=
  c6_create_with_public_key baseEnv "k" "k.pub" "ssh-rsa AAAA user@host"
    none none none none [] rfl rfl rfl (Or.inl rfl) rfl

/-- C7: Create with neither a public-key path nor a private-key path
(gates passing) returns the empty record and writes the private key
returned by the create call verbatim to stdout. -/
theorem c7_create_console (env : Env) (name : String)
    (ty user ud uid : Option String) (calls : List String)
    (hty : truthy ty = false ∨ APIVersion.lt env.api_version v2_2 = false)
    (hres : resolveUserGate env user ud = .ok (uid, calls)) :
    (createTakeAction env name none none ty user ud).result = .ok ([], []) ∧
    (createTakeAction env name none none ty user ud).stdout =
      [(env.keypairs_create
        ⟨name, none, (if truthy ty then ty else none), uid⟩).private_key] ∧
    (createTakeAction env name none none ty user ud).createRequests =
      [⟨name, none, (if truthy ty then ty else none), uid⟩] := by
  have hrp : readPublicKey env none = .ok none := rfl
  have hpvk : truthy (none : Option String) = false := rfl
  rcases hty with h | h
  · refine ⟨?_, ?_, ?_⟩ <;>
      simp [createTakeAction, hrp, h, hres, savePrivateKey, hpvk]
  · cases ht : truthy ty with
    | true =>
      refine ⟨?_, ?_, ?_⟩ <;>
        simp [createTakeAction, hrp, ht, h, hres, savePrivateKey, hpvk]
    | false =>
      refine ⟨?_, ?_, ?_⟩ <;>
        simp [createTakeAction, hrp, ht, hres, savePrivateKey, hpvk]

/-- C7 witness: a plain create dumps the generated private key to stdout
and returns the empty record. -/
theorem c7_create_console_witness :
    (createTakeAction baseEnv "k" none none none none none).result =
      .ok ([], []) ∧
    (createTakeAction baseEnv "k" none none none none none).stdout =
      [(baseEnv.keypairs_create
        ⟨"k", none, (if truthy none then none else none),
          none⟩).private_key] ∧
    (createTakeAction baseEnv "k" none none none none none).createRequests =
      [⟨"k", none, (if truthy none then none else none), none⟩] :=
  c7_create_console baseEnv "k" none none none none [] (Or.inl rfl) rfl

/-- C8: Show always performs the (scoped) by-name fetch of the full
keypair; with publicKeyOnly true it returns the empty record and writes
the public key text to stdout, with publicKeyOnly false it returns the
record of all the keypair's fields except public_key, sorted by field
name (the fetched record carrying a public_key field, per the data
model). -/
theorem c8_show_display (env : Env) (name : String) (pko : Bool)
    (user ud uid : Option String) (calls : List String) (kp : Keypair)
    (hres : resolveUserGate env user ud = .ok (uid, calls))
    (hfind : env.find_resource name uid = some kp)
    (hmem : kp.info.any (fun p => p.1 == "public_key") = true) :
    (showTakeAction env name pko user ud).lookupCalls = [(name, uid)] ∧
    (pko = true →
      (showTakeAction env name pko user ud).result = .ok ([], []) ∧
      (showTakeAction env name pko user ud).stdout = [kp.public_key]) ∧
    (pko = false →
      (showTakeAction env name pko user ud).result =
        .ok (recordOf (kp.info.filter (fun p => p.1 != "public_key"))) ∧
      (showTakeAction env name pko user ud).stdout = [] ∧
      List.Sorted (fun a b => strLe a b = true)
        (recordOf (kp.info.filter (fun p => p.1 != "public_key"))).1 ∧
      "public_key" ∉
        (recordOf (kp.info.filter (fun p => p.1 != "public_key"))).1) := by
  have hds : delKeyStrict "public_key" kp.info =
      .ok (kp.info.filter (fun p => p.1 != "public_key")) := by
    simp [delKeyStrict, hmem]
  refine ⟨?_, fun hp => ?_, fun hp => ?_⟩
  · cases pko with
    | true => simp [showTakeAction, hres, hfind]
    | false => simp [showTakeAction, hres, hfind, hds]
  · subst hp
    simp [showTakeAction, hres, hfind]
  · subst hp
    refine ⟨?_, ?_, recordOf_keys_sorted _, fun hm => ?_⟩
    · simp [showTakeAction, hres, hfind, hds]
    · simp [showTakeAction, hres, hfind, hds]
    · exact not_mem_keys_filter "public_key" kp.info
        ((mem_keys_recordOf _ _).mp hm)

/-- C8 witness: showing keypair A without the flag yields its record
without public_key; the lookup is made once. -/
theorem c8_show_display_witness :
    (showTakeAction baseEnv "A" false none none).lookupCalls =
      [("A", none)] ∧
    (false = true →
      (showTakeAction baseEnv "A" false none none).result = .ok ([], []) ∧
      (showTakeAction baseEnv "A" false none none).stdout =
        [kpA.public_key]) ∧
    (false = false →
      (showTakeAction baseEnv "A" false none none).result =
        .ok (recordOf (kpA.info.filter (fun p => p.1 != "public_key"))) ∧
      (showTakeAction baseEnv "A" false none none).stdout = [] ∧
      List.Sorted (fun a b => strLe a b = true)
        (recordOf (kpA.info.filter (fun p => p.1 != "public_key"))).1 ∧
      "public_key" ∉
        (recordOf (kpA.info.filter (fun p => p.1 != "public_key"))).1) :=
  c8_show_display baseEnv "A" false none none none [] kpA rfl rfl rfl

/-- C9: Show with publicKeyOnly false removes public_key from the
fetched record unconditionally: when the record lacks that field the
command fails with KeyError, so a record is only produced when the field
is present; Create, whose removals are membership-guarded, succeeds on
such a record (shown at a concrete input). -/
theorem c9_show_unguarded_del (env : Env) (name : String)
    (user ud uid : Option String) (calls : List String) (kp : Keypair)
    (hres : resolveUserGate env user ud = .ok (uid, calls))
    (hfind : env.find_resource name uid = some kp) :
    (kp.info.any (fun p => p.1 == "public_key") = false →
      (showTakeAction env name false user ud).result =
        .error (.keyError "public_key")) ∧
    (resultIsOk (showTakeAction env name false user ud).result = true →
      kp.info.any (fun p => p.1 == "public_key") = true) ∧
    (createTakeAction envC9 "k" (some "k.pub") none none none
      none).result = .ok (["fingerprint", "name"], ["fp:09", "k"]) := by
  have herr : kp.info.any (fun p => p.1 == "public_key") = false →
      (showTakeAction env name false user ud).result =
        .error (.keyError "public_key") := by
    intro hno
    simp [showTakeAction, hres, hfind, delKeyStrict, hno]
  refine ⟨herr, fun hok => ?_, rfl⟩
  cases hany : kp.info.any (fun p => p.1 == "public_key") with
  | true => rfl
  | false =>
    rw [herr hany] at hok
    simp [resultIsOk] at hok

/-- C9 witness: a fetched keypair whose record lacks public_key makes
Show fail with KeyError instead of producing a record. -/
theorem c9_show_unguarded_del_witness :
    (kpNoPub.info.any (fun p => p.1 == "public_key") = false →
      (showTakeAction envC9 "N" false none none).result =
        .error (.keyError "public_key")) ∧
    (resultIsOk (showTakeAction envC9 "N" false none none).result = true →
      kpNoPub.info.any (fun p => p.1 == "public_key") = true) ∧
    (createTakeAction envC9 "k" (some "k.pub") none none none
      none).result = .ok (["fingerprint", "name"], ["fp:09", "k"]) :=
  c9_show_unguarded_del envC9 "N" none none none [] kpNoPub rfl rfl

end Keypairs
